import Mathlib

/-!
Verification of the resilient-paginated-fetcher behaviour of the revops-scripts
repository.  The HTTP layer is modelled by a stream of pre-determined responses
(a list consumed one element per HTTP call); network exceptions of the requests
library are outside the model.  Sleeping is modelled by recording the computed
wait durations; randomness (random.uniform(0, 1)) is modelled by an explicit
jitter function supplied as a parameter.
-/

deriving instance DecidableEq for Except

/-- An HTTP response as the scripts observe it: status code, the optional
parsed Retry-After header, the parsed list of result records
(the results field of the JSON body), whether a next-page cursor
(paging.next.after or paging.next.link) is present and truthy, and the
response body text. -/
structure Resp (α : Type) where
  status : Nat := 200
  retryAfter : Option Nat := none
  results : List α := []
  next : Bool := false
  body : String := ""
deriving Repr, DecidableEq

/-- The request data passed to requests.get: URL and query parameters. -/
structure Request where
  url : String
  params : List (String × String)
deriving Repr, DecidableEq

/-- Errors raised by the request helpers.  noResponse is a modelling artifact
marking exhaustion of the finite response stream (the theorems only use
streams long enough for it never to arise). -/
inductive FetchErr where
  | httpError (status : Nat) (body : String)
  | maxRetriesExceeded
  | failedAfterRetries
  | noResponse
deriving Repr, DecidableEq

/-- The observable result of one request helper run: the outcome, the
list of requests issued (one entry per HTTP call, in order), and the
list of wait durations slept before retries, in order. -/
structure RunTrace (α : Type) where
  outcome : Except FetchErr (Resp α)
  calls : List Request
  waits : List ℚ
deriving Repr, DecidableEq

namespace AllTouchpoints

/-- One entry of a propertiesWithHistory history list: the value and
timestamp fields, absent keys modelled as none. -/
structure HistEntry where
  value : Option String := none
  timestamp : Option String := none
deriving Repr, DecidableEq

/-- The propertiesWithHistory object of a contact, as read by
build_touchpoints via .get with default empty list. -/
structure PropsWithHistory where
  hs_latest_source : List HistEntry := []
  hs_latest_source_data_1 : List HistEntry := []
  hs_latest_source_data_2 : List HistEntry := []
deriving Repr, DecidableEq

/-- The properties object of a contact; absent keys modelled as none
(process_contacts_in_batches reads them with default value unknown). -/
structure ContactProps where
  associatedcompanyid : Option String := none
  hs_analytics_source : Option String := none
  hs_analytics_source_data_1 : Option String := none
  hs_analytics_source_data_2 : Option String := none
deriving Repr, DecidableEq

/-- A contact record of the CRM v3 contacts endpoint. -/
structure Contact where
  id : Option String := none
  propertiesWithHistory : PropsWithHistory := {}
  properties : ContactProps := {}
deriving Repr, DecidableEq

/-- A touchpoint dictionary built by build_touchpoints. -/
structure Touchpoint where
  contact_id : Option String
  associatedcompanyid : String
  timestamp_touchpoint : Option String
  source_touchpoint : String
  source_data_1_touchpoint : String
  source_data_2_touchpoint : String
  hs_analytics_source : String
  hs_analytics_source_data_1 : String
  hs_analytics_source_data_2 : String
deriving Repr, DecidableEq

/-- The valid_sources set of build_touchpoints (all-touchpoints.py lines
39 to 53). -/
def validSources : List String :=
  ["REFERRALS", "OTHER_CAMPAIGNS", "ORGANIC_SOCIAL", "SOCIAL_ORGANIC",
   "PAID_SEARCH", "PAID_SOCIAL", "EVENTS", "NETWORK", "OFFLINE",
   "EMAIL_MARKETING", "DIRECT_TRAFFIC", "ORGANIC_SEARCH", "OTHER"]

/-- The loop body of build_touchpoints: walks hs_latest_source with index i,
reads the parallel data lists when the index is in range (default unknown
otherwise), and keeps only entries whose source is in valid_sources. -/
def buildTouchpointsGo (pwh : PropsWithHistory) (cid : Option String)
    (acid a a1 a2 : String) : List HistEntry → Nat → List Touchpoint
  | [], _ => []
  | e :: es, i =>
    let source := e.value.getD "unknown"
    let source_data_1 :=
      match pwh.hs_latest_source_data_1[i]? with
      | some x => x.value.getD "unknown"
      | none => "unknown"
    let source_data_2 :=
      match pwh.hs_latest_source_data_2[i]? with
      | some x => x.value.getD "unknown"
      | none => "unknown"
    let timestamp := e.timestamp
    let rest := buildTouchpointsGo pwh cid acid a a1 a2 es (i + 1)
    if source ∈ validSources then
      { contact_id := cid, associatedcompanyid := acid,
        timestamp_touchpoint := timestamp, source_touchpoint := source,
        source_data_1_touchpoint := source_data_1,
        source_data_2_touchpoint := source_data_2,
        hs_analytics_source := a, hs_analytics_source_data_1 := a1,
        hs_analytics_source_data_2 := a2 } :: rest
    else rest

/-- build_touchpoints (all-touchpoints.py lines 36 to 79). -/
def buildTouchpoints (pwh : PropsWithHistory) (cid : Option String)
    (acid a a1 a2 : String) : List Touchpoint :=
  buildTouchpointsGo pwh cid acid a a1 a2 pwh.hs_latest_source 0

/-- The per-contact body of process_contacts_in_batches (lines 109 to 118):
extract the properties with default unknown and call build_touchpoints. -/
def contactTouchpoints (c : Contact) : List Touchpoint :=
  buildTouchpoints c.propertiesWithHistory c.id
    (c.properties.associatedcompanyid.getD "unknown")
    (c.properties.hs_analytics_source.getD "unknown")
    (c.properties.hs_analytics_source_data_1.getD "unknown")
    (c.properties.hs_analytics_source_data_2.getD "unknown")

/-- The CSV header of write_touchpoints_to_csv. -/
def fieldnames : List String :=
  ["contact_id", "associatedcompanyid", "timestamp_touchpoint",
   "source_touchpoint", "source_data_1_touchpoint",
   "source_data_2_touchpoint", "hs_analytics_source",
   "hs_analytics_source_data_1", "hs_analytics_source_data_2"]

/-- One CSV row of a touchpoint (DictWriter renders None as the empty
string). -/
def touchpointRow (tp : Touchpoint) : List String :=
  [tp.contact_id.getD "", tp.associatedcompanyid,
   tp.timestamp_touchpoint.getD "", tp.source_touchpoint,
   tp.source_data_1_touchpoint, tp.source_data_2_touchpoint,
   tp.hs_analytics_source, tp.hs_analytics_source_data_1,
   tp.hs_analytics_source_data_2]

/-- write_touchpoints_to_csv (lines 81 to 92): the CSV file is a list of
rows; the file is opened in append mode, the header is written only when
the file is still empty, then the rows are appended. -/
def writeTouchpointsToCsv (file : List (List String))
    (tps : List Touchpoint) : List (List String) :=
  let file := if file.isEmpty then [fieldnames] else file
  file ++ tps.map touchpointRow

/-- make_request_with_retries (lines 12 to 22), loop body: for i in
range(retries); on 429 sleep backoff then multiply backoff by 2.5 and
re-issue the identical request; otherwise raise_for_status (status 400 to
599 raises) and return the response; when the loop runs out, raise
Max retries exceeded. -/
def makeRequestWithRetriesGo (url : String) (params : List (String × String)) :
    Nat → List (Resp α) → ℚ → RunTrace α
  | 0, _, _ => { outcome := .error .maxRetriesExceeded, calls := [], waits := [] }
  | _ + 1, [], _ => { outcome := .error .noResponse, calls := [], waits := [] }
  | rem + 1, r :: rest, backoff =>
    if r.status = 429 then
      let t := makeRequestWithRetriesGo url params rem rest (backoff * (5 / 2))
      { outcome := t.outcome, calls := ⟨url, params⟩ :: t.calls,
        waits := backoff :: t.waits }
    else if 400 ≤ r.status ∧ r.status < 600 then
      { outcome := .error (.httpError r.status r.body),
        calls := [⟨url, params⟩], waits := [] }
    else
      { outcome := .ok r, calls := [⟨url, params⟩], waits := [] }

/-- make_request_with_retries with its default arguments retries = 5 and
backoff = 2. -/
def makeRequestWithRetries (url : String) (params : List (String × String))
    (stream : List (Resp α)) : RunTrace α :=
  makeRequestWithRetriesGo url params 5 stream 2

/-- Test-mode constants of all-touchpoints.py (TEST_MODE is False). -/
def TEST_MODE : Bool := false

/-- TEST_LIMIT constant of all-touchpoints.py. -/
def TEST_LIMIT : Nat := 300

/-- A page of the contacts endpoint as process_contacts_in_batches consumes
it: the results list and whether paging next after is present and truthy. -/
structure CPage where
  results : List Contact := []
  next : Bool := false
deriving Repr, DecidableEq

/-- The observable result of process_contacts_in_batches: whether it
returned normally or an exception propagated out of it, the final CSV
file contents, and the number of page requests issued. -/
structure PcResult where
  outcome : Except FetchErr Unit
  file : List (List String)
  pagesFetched : Nat
deriving Repr, DecidableEq

/-- process_contacts_in_batches (lines 94 to 125) over a stream of
page-fetch outcomes: each loop iteration performs one
get_contacts_with_history call, whose outcome (a parsed page, or the
exception propagating out of make_request_with_retries) is the next
element of the stream.  An empty results list breaks the loop; otherwise
the touchpoints of the page are built and appended to the CSV file, and
the loop continues while the next cursor is present. -/
def processContactsGo :
    List (Except FetchErr CPage) → List (List String) → Nat → PcResult
  | [], file, _ => { outcome := .error .noResponse, file := file, pagesFetched := 0 }
  | po :: rest, file, processed =>
    if TEST_MODE ∧ TEST_LIMIT ≤ processed then
      { outcome := .ok (), file := file, pagesFetched := 0 }
    else
      match po with
      | .error e => { outcome := .error e, file := file, pagesFetched := 1 }
      | .ok page =>
        let contacts := page.results
        if contacts.isEmpty then
          { outcome := .ok (), file := file, pagesFetched := 1 }
        else
          let allTouchpoints := contacts.flatMap contactTouchpoints
          let file' := writeTouchpointsToCsv file allTouchpoints
          let processed' := processed + contacts.length
          if page.next = false ∨ (TEST_MODE ∧ TEST_LIMIT ≤ processed') then
            { outcome := .ok (), file := file', pagesFetched := 1 }
          else
            let t := processContactsGo rest file' processed'
            { outcome := t.outcome, file := t.file,
              pagesFetched := t.pagesFetched + 1 }

/-- process_contacts_in_batches started on an empty CSV file. -/
def processContactsInBatches (pages : List (Except FetchErr CPage)) : PcResult :=
  processContactsGo pages [] 0

end AllTouchpoints

namespace Engagements

/-- MAX_RETRIES constant of engagements-before-deal-creation.py. -/
def MAX_RETRIES : Nat := 3

/-- RETRY_BACKOFF constant of engagements-before-deal-creation.py. -/
def RETRY_BACKOFF : Nat := 2

/-- make_request (engagements-before-deal-creation.py lines 53 to 78),
loop body: for attempt in 1 to MAX_RETRIES; raise_for_status raises for
status 400 to 599; on 429 the wait is
(Retry-After header, else RETRY_BACKOFF) * RETRY_BACKOFF ^ attempt + jitter;
on 5xx the wait is RETRY_BACKOFF * 2 ^ attempt + jitter; any other HTTP
error re-raises immediately carrying the status code and the extracted
response detail (modelled by the body field); when the loop runs out,
raise Failed to fetch data after MAX_RETRIES attempts. -/
def makeRequestGo (url : String) (params : List (String × String))
    (jitter : Nat → ℚ) : List (Resp α) → Nat → Nat → RunTrace α
  | _, 0, _ => { outcome := .error .failedAfterRetries, calls := [], waits := [] }
  | [], _ + 1, _ => { outcome := .error .noResponse, calls := [], waits := [] }
  | r :: rest, rem + 1, attempt =>
    if 400 ≤ r.status ∧ r.status < 600 then
      if r.status = 429 then
        let retry_after := r.retryAfter.getD RETRY_BACKOFF
        let wait := (retry_after : ℚ) * (RETRY_BACKOFF : ℚ) ^ attempt + jitter attempt
        let t := makeRequestGo url params jitter rest rem (attempt + 1)
        { outcome := t.outcome, calls := ⟨url, params⟩ :: t.calls,
          waits := wait :: t.waits }
      else if 500 ≤ r.status ∧ r.status < 600 then
        let wait := (RETRY_BACKOFF : ℚ) * (2 : ℚ) ^ attempt + jitter attempt
        let t := makeRequestGo url params jitter rest rem (attempt + 1)
        { outcome := t.outcome, calls := ⟨url, params⟩ :: t.calls,
          waits := wait :: t.waits }
      else
        { outcome := .error (.httpError r.status r.body),
          calls := [⟨url, params⟩], waits := [] }
    else
      { outcome := .ok r, calls := [⟨url, params⟩], waits := [] }

/-- make_request started at attempt 1 with MAX_RETRIES = 3 loop rounds. -/
def makeRequest (url : String) (params : List (String × String))
    (jitter : Nat → ℚ) (stream : List (Resp α)) : RunTrace α :=
  makeRequestGo url params jitter stream MAX_RETRIES 1

/-- A value of the outputFields dictionary of main: a string or a number. -/
inductive OutVal where
  | str (s : String)
  | num (n : Int)
deriving Repr, DecidableEq

/-- The default_output dictionary of main (lines 202 to 211), in
insertion order. -/
def defaultOutput : List (String × OutVal) :=
  [("engagements_json", .str ""),
   ("engagements_all_json", .str ""),
   ("deal_create_date_formatted", .str ""),
   ("count_calls_before_deal_creation", .num 0),
   ("count_meetings_before_deal_creation", .num 0),
   ("count_emails_before_deal_creation", .num 0),
   ("count_engagements_before_deal_creation", .num 0),
   ("error_message", .str "")]

/-- The output fields declared by the module docstring of
engagements-before-deal-creation.py (lines 14 to 21). -/
def declaredOutputFields : List String :=
  ["engagements_filtered_json", "engagements_all_json",
   "deal_create_date_formatted", "count_calls_before_deal_creation",
   "count_meetings_before_deal_creation", "count_emails_before_deal_creation",
   "count_engagements_before_deal_creation"]

/-- Assignment to the error_message key of an output dictionary. -/
def setError (out : List (String × OutVal)) (msg : String) :
    List (String × OutVal) :=
  out.map fun kv => if kv.1 = "error_message" then (kv.1, .str msg) else kv

/-- The inputFields of the event given to main. -/
structure EngEvent where
  deal_id : Option String := none
  deal_create_date : Option String := none
deriving Repr, DecidableEq

/-- Python truthiness of an optional string field. -/
def truthyS : Option String → Bool
  | none => false
  | some s => s ≠ ""

/-- The pure input-validation prefix of main (lines 213 to 233): missing
deal_id, missing deal_create_date, or an unparsable deal_create_date each
return outputFields = default_output with error_message set; a none result
means execution proceeds to the network calls, which are outside this
embedding (the claim is settled on the pure prefix). -/
def mainValidationPath (ev : EngEvent) : Option (List (String × OutVal)) :=
  if ¬ truthyS ev.deal_id then
    some (setError defaultOutput "Deal ID is missing.")
  else if ¬ truthyS ev.deal_create_date then
    some (setError defaultOutput "Deal creation date is missing.")
  else
    match (ev.deal_create_date.getD "").toInt? with
    | none => some (setError defaultOutput
        "Invalid deal creation date format. It should be a UNIX timestamp in milliseconds.")
    | some _ => none

end Engagements

namespace Workflows

/-- MAX_RETRIES constant of workflows-summarizer.py. -/
def MAX_RETRIES : Nat := 5

/-- INITIAL_BACKOFF constant of workflows-summarizer.py. -/
def INITIAL_BACKOFF : Nat := 2

/-- BACKOFF_FACTOR constant of workflows-summarizer.py. -/
def BACKOFF_FACTOR : Nat := 3

/-- The observable result of fetch_all_workflows_v4: the returned workflow
list (none marks exhaustion of the modelled response stream, which the
theorems never reach), the number of HTTP calls made, and the waits slept
before 429 retries. -/
structure FawResult (α : Type) where
  result : Option (List α)
  callCount : Nat
  waits : List ℚ
deriving Repr, DecidableEq

/-- fetch_all_workflows_v4 (workflows-summarizer.py lines 207 to 266):
while True over pages, for attempt in 1 to MAX_RETRIES per page; on 200
extend the accumulator and follow paging.next.link with the attempt
counter and backoff reset, or return the accumulated list when no next
cursor is present; on 429 sleep the Retry-After header value (else the
current backoff), multiply backoff by BACKOFF_FACTOR and retry; on any
other status log and return the accumulated list; when the retry loop
runs out (for-else), return the accumulated list. -/
def fetchAllWorkflowsV4Go :
    List (Resp α) → List α → Nat → Nat → FawResult α
  | [], acc, attempt, _ =>
    if MAX_RETRIES < attempt then
      { result := some acc, callCount := 0, waits := [] }
    else
      { result := none, callCount := 0, waits := [] }
  | r :: rest, acc, attempt, backoff =>
    if MAX_RETRIES < attempt then
      { result := some acc, callCount := 0, waits := [] }
    else
      if r.status = 200 then
        if r.next then
          let t := fetchAllWorkflowsV4Go rest (acc ++ r.results) 1 INITIAL_BACKOFF
          { result := t.result, callCount := t.callCount + 1, waits := t.waits }
        else
          { result := some (acc ++ r.results), callCount := 1, waits := [] }
      else if r.status = 429 then
        let w := r.retryAfter.getD backoff
        let t := fetchAllWorkflowsV4Go rest acc (attempt + 1) (backoff * BACKOFF_FACTOR)
        { result := t.result, callCount := t.callCount + 1,
          waits := (w : ℚ) :: t.waits }
      else
        { result := some acc, callCount := 1, waits := [] }

/-- fetch_all_workflows_v4 started with an empty accumulator, attempt 1
and INITIAL_BACKOFF. -/
def fetchAllWorkflowsV4 (stream : List (Resp α)) : FawResult α :=
  fetchAllWorkflowsV4Go stream [] 1 INITIAL_BACKOFF

/-- The observable result of fetch_workflow_details_v4: some (some r) is
a 200 response returned as JSON, some none is the empty-dict failure
return, none marks stream exhaustion (a modelling artifact); urls lists
the URL of every HTTP call made, waits the sleeps before 429 retries. -/
structure FwdResult (α : Type) where
  result : Option (Option (Resp α))
  urls : List String
  waits : List ℚ
deriving Repr, DecidableEq

/-- fetch_workflow_details_v4 (workflows-summarizer.py lines 268 to 311):
for attempt in 1 to MAX_RETRIES against one fixed URL; 200 returns the
JSON; 429 sleeps the Retry-After header value (else the current backoff)
and multiplies backoff by BACKOFF_FACTOR; any other status returns the
empty dict; exhaustion of the loop returns the empty dict. -/
def fetchWorkflowDetailsV4Go (url : String) :
    List (Resp α) → Nat → Nat → FwdResult α
  | _, 0, _ => { result := some none, urls := [], waits := [] }
  | [], _ + 1, _ => { result := none, urls := [], waits := [] }
  | r :: rest, rem + 1, backoff =>
    if r.status = 200 then
      { result := some (some r), urls := [url], waits := [] }
    else if r.status = 429 then
      let w := r.retryAfter.getD backoff
      let t := fetchWorkflowDetailsV4Go url rest rem (backoff * BACKOFF_FACTOR)
      { result := t.result, urls := url :: t.urls, waits := (w : ℚ) :: t.waits }
    else
      { result := some none, urls := [url], waits := [] }

/-- The URL of fetch_workflow_details_v4 for a workflow id. -/
def detailsUrl (workflow_id : String) : String :=
  "https://api.hubapi.com/automation/v4/flows/" ++ workflow_id

/-- fetch_workflow_details_v4 for a workflow id. -/
def fetchWorkflowDetailsV4 (workflow_id : String) (stream : List (Resp α)) :
    FwdResult α :=
  fetchWorkflowDetailsV4Go (detailsUrl workflow_id) stream MAX_RETRIES INITIAL_BACKOFF

end Workflows

namespace CustomDate

/-- The observable state of fetch_property_history after running its
while-True loop for a bounded number of iterations: result is none while
the loop is still running (fuel exhausted), some v once the function has
returned v; callCount counts the HTTP calls made and waits the sleeps
before 429 retries.  The payload returned on a 200 with nonempty history
is the raw history list (the determine_timestamp_format transformation is
irrelevant to the retry loop and not modelled). -/
structure FphResult (α : Type) where
  result : Option (Option (List α))
  callCount : Nat
  waits : List ℚ
deriving Repr, DecidableEq

/-- fetch_property_history (custom-date-to-custom-datetime.py lines 149 to
184): retries = 0; while True: issue the request; on 429 increment retries,
sleep (Retry-After header, else 1) * 2 ^ retries + jitter and loop again,
with no cap on retries; on 200 return the parsed history (none when the
history list is empty); on any other status return None.  The fuel
argument bounds how many loop iterations are observed; the loop itself has
no bound. -/
def fetchPropertyHistoryGo (respond : Nat → Resp α) (jitter : Nat → ℚ) :
    Nat → Nat → FphResult α
  | 0, _ => { result := none, callCount := 0, waits := [] }
  | fuel + 1, retries =>
    let r := respond retries
    if r.status = 429 then
      let retries' := retries + 1
      let wait := ((r.retryAfter.getD 1 : Nat) : ℚ) * (2 : ℚ) ^ retries' + jitter retries'
      let t := fetchPropertyHistoryGo respond jitter fuel retries'
      { result := t.result, callCount := t.callCount + 1, waits := wait :: t.waits }
    else if r.status = 200 then
      { result := some (if r.results.isEmpty then none else some r.results),
        callCount := 1, waits := [] }
    else
      { result := some none, callCount := 1, waits := [] }

/-- fetch_property_history observed for a given number of loop iterations,
starting from retries = 0. -/
def fetchPropertyHistory (respond : Nat → Resp α) (jitter : Nat → ℚ)
    (fuel : Nat) : FphResult α :=
  fetchPropertyHistoryGo respond jitter fuel 0

end CustomDate

namespace Months

/-- A Python datetime value at millisecond precision (utcfromtimestamp of
a millisecond timestamp divided by 1000 carries at most millisecond
fractions).  Comparison of datetime objects is lexicographic on the
fields. -/
structure PyDateTime where
  year : Nat
  month : Nat
  day : Nat
  hour : Nat
  minute : Nat
  second : Nat
  millis : Nat
deriving Repr, DecidableEq

/-- Strict lexicographic order of datetime objects, as Python compares
them. -/
def dtLt (a b : PyDateTime) : Bool :=
  if a.year ≠ b.year then a.year < b.year
  else if a.month ≠ b.month then a.month < b.month
  else if a.day ≠ b.day then a.day < b.day
  else if a.hour ≠ b.hour then a.hour < b.hour
  else if a.minute ≠ b.minute then a.minute < b.minute
  else if a.second ≠ b.second then a.second < b.second
  else a.millis < b.millis

/-- Gregorian leap-year test. -/
def isLeap (y : Nat) : Bool :=
  y % 4 = 0 ∧ (y % 100 ≠ 0 ∨ y % 400 = 0)

/-- Number of days of a Gregorian year. -/
def daysInYear (y : Nat) : Nat :=
  if isLeap y then 366 else 365

/-- The month lengths of a year. -/
def monthLengths (leap : Bool) : List Nat :=
  [31, if leap then 29 else 28, 31, 30, 31, 30, 31, 31, 30, 31, 30, 31]

/-- Walk forward from a base year consuming whole years from a day count;
returns the final year and the remaining zero-based day of year.  The
fuel is an upper bound on the number of steps (the day count itself
suffices since every year has at least one day). -/
def yearWalk : Nat → Nat → Nat → Nat × Nat
  | 0, y, d => (y, d)
  | fuel + 1, y, d =>
    if d < daysInYear y then (y, d) else yearWalk fuel (y + 1) (d - daysInYear y)

/-- Walk the month-length table consuming whole months from a zero-based
day of year; returns the month number and the zero-based day of month. -/
def monthWalk : List Nat → Nat → Nat → Nat × Nat
  | [], m, d => (m, d)
  | len :: rest, m, d =>
    if d < len then (m, d) else monthWalk rest (m + 1) (d - len)

/-- datetime.utcfromtimestamp applied to a nonnegative millisecond
timestamp divided by 1000: proleptic Gregorian UTC calendar fields. -/
def msToDateTime (ms : Nat) : PyDateTime :=
  let days := ms / 86400000
  let rem := ms % 86400000
  let yd := yearWalk days 1970 days
  let md := monthWalk (monthLengths (isLeap yd.1)) 1 yd.2
  { year := yd.1, month := md.1, day := md.2 + 1,
    hour := rem / 3600000, minute := rem % 3600000 / 60000,
    second := rem % 60000 / 1000, millis := rem % 1000 }

/-- Zero-padded two-digit rendering of a month number. -/
def pad2 (n : Nat) : String :=
  if n < 10 then "0" ++ toString n else toString n

/-- Zero-padded four-digit rendering of a year number. -/
def pad4 (n : Nat) : String :=
  if n < 10 then "000" ++ toString n
  else if n < 100 then "00" ++ toString n
  else if n < 1000 then "0" ++ toString n
  else toString n

/-- strftime with format %Y-%m. -/
def formatYM (y m : Nat) : String :=
  pad4 y ++ "-" ++ pad2 m

/-- The loop of generate_month_list: while the current first-of-month
datetime is at most the end first-of-month datetime (lexicographically on
year then month), emit %Y-%m and advance by one month.  The fuel bounds
the iteration count; generateMonthList supplies enough for the guard to
drive termination exactly as in the source. -/
def genMonthsGo (ey em : Nat) : Nat → Nat → Nat → List String
  | 0, _, _ => []
  | fuel + 1, y, m =>
    if y < ey ∨ (y = ey ∧ m ≤ em) then
      formatYM y m ::
        (if m = 12 then genMonthsGo ey em fuel (y + 1) 1
         else genMonthsGo ey em fuel y (m + 1))
    else []

/-- generate_month_list (months-in-service-period.py lines 99 to 106). -/
def generateMonthList (s e : PyDateTime) : List String :=
  genMonthsGo e.year e.month (e.year * 12 + e.month + 1 - (s.year * 12 + s.month))
    s.year s.month

/-- The result of main: the error dictionary or the outputFields
dictionary with its three fields. -/
inductive MonthsResult where
  | error (msg : String)
  | output (invoicing_period_months : String) (invoicing_period_length : Nat)
      (is_projected : String)
deriving Repr, DecidableEq

/-- Python truthiness of an optional numeric timestamp field (None and 0
are falsy). -/
def truthyN : Option Nat → Bool
  | none => false
  | some n => n ≠ 0

/-- main of months-in-service-period.py (lines 39 to 131) with testing
False, over the three optional millisecond-timestamp input fields:
convert the start; pick the end from the end field when truthy (projected
NO), else from the projected field when truthy (projected YES); validate;
reject a start date after the end date; otherwise emit the
semicolon-joined month list, its length and the projection flag. -/
def mainMonths (startTs endTs projTs : Option Nat) : MonthsResult :=
  let invoicing_start_date := startTs.map msToDateTime
  let endAndFlag : Option PyDateTime × String :=
    if truthyN endTs then (endTs.map msToDateTime, "NO")
    else if truthyN projTs then (projTs.map msToDateTime, "YES")
    else (none, "NO")
  match invoicing_start_date with
  | none => .error "Invalid invoicing period start date input."
  | some s =>
    match endAndFlag.1 with
    | none => .error "Invalid invoicing period end date input."
    | some e =>
      if dtLt e s then .error "Invoicing period start date is after the end date."
      else
        let months := generateMonthList s e
        .output (String.intercalate ";" months) months.length endAndFlag.2

end Months

namespace Workflows

/-- A finite cursor-paginated server for fetch_all_workflows_v4: the given
pages in order, each served with status 200, every page carrying a next
cursor except the last. -/
def pagesToStream : List (List α) → List (Resp α)
  | [] => []
  | [p] => [{ status := 200, results := p, next := false }]
  | p :: q :: rest =>
    { status := 200, results := p, next := true } :: pagesToStream (q :: rest)

end Workflows

namespace AllTouchpoints

/-- A finite cursor-paginated contacts server for
process_contacts_in_batches: the given pages of contacts in order, every
page carrying a next cursor except the last, each page fetch
succeeding. -/
def contactPagesToStream : List (List Contact) → List (Except FetchErr CPage)
  | [] => []
  | [p] => [.ok { results := p, next := false }]
  | p :: q :: rest =>
    .ok { results := p, next := true } :: contactPagesToStream (q :: rest)

/-- A contacts server whose listed pages all carry a next cursor (the
fetch would continue past them). -/
def allNextStream (pages : List (List Contact)) : List (Except FetchErr CPage) :=
  pages.map fun pg => .ok { results := pg, next := true }

/-- The per-page CSV rows appended by one loop iteration of
process_contacts_in_batches for a page of contacts. -/
def pageRows (pg : List Contact) : List (List String) :=
  ((pg.flatMap contactTouchpoints).map touchpointRow)

/-- A concrete contact carrying one valid-source history entry. -/
def contactA : Contact :=
  { id := some "1",
    propertiesWithHistory :=
      { hs_latest_source := [{ value := some "REFERRALS", timestamp := some "t1" }] } }

/-- A second concrete contact carrying one valid-source history entry. -/
def contactB : Contact :=
  { id := some "2",
    propertiesWithHistory :=
      { hs_latest_source := [{ value := some "PAID_SEARCH", timestamp := some "t2" }] } }

/-- A third concrete contact carrying one valid-source history entry. -/
def contactC : Contact :=
  { id := some "3",
    propertiesWithHistory :=
      { hs_latest_source := [{ value := some "OTHER", timestamp := some "t3" }] } }

end AllTouchpoints

namespace Months

/-- The month index of a year-month pair, counting months linearly. -/
def monthIndex (y m : Nat) : Nat := y * 12 + m

/-- The %Y-%m string of a month index (inverse of monthIndex for month
numbers between 1 and 12). -/
def ymOfIndex (i : Nat) : String :=
  formatYM ((i - 1) / 12) ((i - 1) % 12 + 1)

end Months

namespace CompressImages

/-- The limit variable of fetch_images (compress-hubspot-images.py line
28): the page size requested at each offset. -/
def limit : Nat := 500

/-- One request of fetch_images against a faithful offset-paginated
file-manager server holding the full record sequence R: the objects field
of the 200 response for a given offset is the slice of R starting at that
offset, at most limit records long. -/
def pageAt (R : List α) (offset : Nat) : List α :=
  (R.drop offset).take limit

/-- The while-True loop of fetch_images (compress-hubspot-images.py lines
31 to 43): request the page at the current offset, extend the accumulator
with its objects, stop when the page has fewer than 499 objects, else
advance the offset by limit and continue.  All responses are 200 in this
server model (a non-200 response logs and breaks, cf. the swallowing
analysed for fetch_all_workflows_v4).  The fuel bounds the observed number
of iterations; fetchImages supplies enough for the size guard to drive
termination exactly as in the source. -/
def fetchImagesGo (R : List α) : Nat → Nat → List α → List α
  | 0, _, acc => acc
  | fuel + 1, offset, acc =>
    let objects := pageAt R offset
    let acc := acc ++ objects
    if objects.length < 499 then acc
    else fetchImagesGo R fuel (offset + limit) acc

/-- fetch_images: the loop started at offset 0 with an empty accumulator,
with enough fuel for the guard to exit first. -/
def fetchImages (R : List α) : List α :=
  fetchImagesGo R (R.length / limit + 2) 0 []

end CompressImages

namespace AllTouchpoints

theorem mrwrGo_calls_length_le (url : String) (params : List (String × String)) :
    ∀ (n : Nat) (stream : List (Resp α)) (b : ℚ),
      ((makeRequestWithRetriesGo url params n stream b).calls).length ≤ n := by
  intro n
  induction n with
  | zero => intro stream b; simp [makeRequestWithRetriesGo]
  | succ k ih =>
    intro stream b
    match stream with
    | [] => simp [makeRequestWithRetriesGo]
    | r :: rest =>
      simp only [makeRequestWithRetriesGo]
      by_cases h : r.status = 429
      · simp only [if_pos h, List.length_cons]
        exact Nat.succ_le_succ (ih rest _)
      · by_cases h2 : 400 ≤ r.status ∧ r.status < 600
        · simp [if_neg h, if_pos h2]
        · simp [if_neg h, if_neg h2]

theorem mrwrGo_all429 (url : String) (params : List (String × String)) :
    ∀ (n : Nat) (stream : List (Resp α)) (b : ℚ),
      (∀ r ∈ stream, r.status = 429) → n ≤ stream.length →
      (makeRequestWithRetriesGo url params n stream b).outcome =
        .error .maxRetriesExceeded ∧
      ((makeRequestWithRetriesGo url params n stream b).calls).length = n := by
  intro n
  induction n with
  | zero => intro stream b _ _; simp [makeRequestWithRetriesGo]
  | succ k ih =>
    intro stream b hall hlen
    match stream with
    | [] => simp at hlen
    | r :: rest =>
      have h429 : r.status = 429 := hall r (List.mem_cons_self r rest)
      have hrest : ∀ x ∈ rest, x.status = 429 :=
        fun x hx => hall x (List.mem_cons_of_mem r hx)
      have hlen' : k ≤ rest.length := by
        simp [List.length_cons] at hlen; omega
      simp only [makeRequestWithRetriesGo, if_pos h429]
      have := ih rest (b * (5 / 2)) hrest hlen'
      simp [this.1, this.2]

theorem mrwrGo_calls_const (url : String) (params : List (String × String)) :
    ∀ (n : Nat) (stream : List (Resp α)) (b : ℚ) (c : Request),
      c ∈ (makeRequestWithRetriesGo url params n stream b).calls →
      c = ⟨url, params⟩ := by
  intro n
  induction n with
  | zero => intro stream b c hc; simp [makeRequestWithRetriesGo] at hc
  | succ k ih =>
    intro stream b c hc
    match stream with
    | [] => simp [makeRequestWithRetriesGo] at hc
    | r :: rest =>
      simp only [makeRequestWithRetriesGo] at hc
      by_cases h : r.status = 429
      · simp only [if_pos h, List.mem_cons] at hc
        rcases hc with hc | hc
        · exact hc
        · exact ih rest _ c hc
      · by_cases h2 : 400 ≤ r.status ∧ r.status < 600 <;>
          simp [if_neg h, h2] at hc <;> exact hc

end AllTouchpoints

namespace Engagements

theorem mkReqGo_all429 (url : String) (params : List (String × String))
    (jitter : Nat → ℚ) :
    ∀ (n : Nat) (stream : List (Resp α)) (attempt : Nat),
      (∀ r ∈ stream, r.status = 429) → n ≤ stream.length →
      (makeRequestGo url params jitter stream n attempt).outcome =
        .error .failedAfterRetries ∧
      ((makeRequestGo url params jitter stream n attempt).calls).length = n := by
  intro n
  induction n with
  | zero => intro stream attempt _ _; simp [makeRequestGo]
  | succ k ih =>
    intro stream attempt hall hlen
    match stream with
    | [] => simp at hlen
    | r :: rest =>
      have h429 : r.status = 429 := hall r (List.mem_cons_self r rest)
      have hin : 400 ≤ r.status ∧ r.status < 600 := by omega
      have hrest : ∀ x ∈ rest, x.status = 429 :=
        fun x hx => hall x (List.mem_cons_of_mem r hx)
      have hlen' : k ≤ rest.length := by
        simp [List.length_cons] at hlen; omega
      simp only [makeRequestGo, if_pos hin, if_pos h429]
      have := ih rest (attempt + 1) hrest hlen'
      simp [this.1, this.2]

theorem mkReqGo_calls_length_le (url : String) (params : List (String × String))
    (jitter : Nat → ℚ) :
    ∀ (n : Nat) (stream : List (Resp α)) (attempt : Nat),
      ((makeRequestGo url params jitter stream n attempt).calls).length ≤ n := by
  intro n
  induction n with
  | zero => intro stream attempt; simp [makeRequestGo]
  | succ k ih =>
    intro stream attempt
    match stream with
    | [] => simp [makeRequestGo]
    | r :: rest =>
      simp only [makeRequestGo]
      by_cases hin : 400 ≤ r.status ∧ r.status < 600
      · by_cases h429 : r.status = 429
        · simp only [if_pos hin, if_pos h429, List.length_cons]
          exact Nat.succ_le_succ (ih rest (attempt + 1))
        · by_cases h5 : 500 ≤ r.status ∧ r.status < 600
          · simp only [if_pos hin, if_neg h429, if_pos h5, List.length_cons]
            exact Nat.succ_le_succ (ih rest (attempt + 1))
          · simp [if_pos hin, if_neg h429, if_neg h5]
      · simp [if_neg hin]

theorem mkReqGo_calls_const (url : String) (params : List (String × String))
    (jitter : Nat → ℚ) :
    ∀ (n : Nat) (stream : List (Resp α)) (attempt : Nat) (c : Request),
      c ∈ (makeRequestGo url params jitter stream n attempt).calls →
      c = ⟨url, params⟩ := by
  intro n
  induction n with
  | zero => intro stream attempt c hc; simp [makeRequestGo] at hc
  | succ k ih =>
    intro stream attempt c hc
    match stream with
    | [] => simp [makeRequestGo] at hc
    | r :: rest =>
      simp only [makeRequestGo] at hc
      by_cases hin : 400 ≤ r.status ∧ r.status < 600
      · by_cases h429 : r.status = 429
        · simp only [if_pos hin, if_pos h429, List.mem_cons] at hc
          rcases hc with hc | hc
          · exact hc
          · exact ih rest (attempt + 1) c hc
        · by_cases h5 : 500 ≤ r.status ∧ r.status < 600
          · simp only [if_pos hin, if_neg h429, if_pos h5, List.mem_cons] at hc
            rcases hc with hc | hc
            · exact hc
            · exact ih rest (attempt + 1) c hc
          · simp [if_pos hin, if_neg h429, if_neg h5] at hc
            exact hc
      · simp [if_neg hin] at hc
        exact hc

end Engagements

namespace Workflows

theorem fwdGo_urls_const (url : String) :
    ∀ (stream : List (Resp α)) (n b : Nat) (u : String),
      u ∈ (fetchWorkflowDetailsV4Go url stream n b).urls → u = url := by
  intro stream
  induction stream with
  | nil =>
    intro n b u hu
    match n with
    | 0 => simp [fetchWorkflowDetailsV4Go] at hu
    | _ + 1 => simp [fetchWorkflowDetailsV4Go] at hu
  | cons r rest ih =>
    intro n b u hu
    match n with
    | 0 => simp [fetchWorkflowDetailsV4Go] at hu
    | k + 1 =>
      simp only [fetchWorkflowDetailsV4Go] at hu
      by_cases h200 : r.status = 200
      · simp [if_pos h200] at hu; exact hu
      · by_cases h429 : r.status = 429
        · simp only [if_neg h200, if_pos h429, List.mem_cons] at hu
          rcases hu with hu | hu
          · exact hu
          · exact ih k (b * BACKOFF_FACTOR) u hu
        · simp [if_neg h200, if_neg h429] at hu; exact hu

end Workflows

/-- C1 counterexample: the claim asserts that every run of the paginated
fetchers re-attempts a 429 at most the retry cap many times and then
terminates raising a max-retries failure with no further HTTP calls, and
that the retry loop terminates for an all-429 response sequence.
fetch_property_history (custom-date-to-custom-datetime.py) refutes this:
under a server that answers 429 forever, after 10 loop iterations — more
than the retry cap of any script in the repository (3 and 5) — it has made
10 HTTP calls, has not returned, and has raised nothing. -/
theorem C1_counterexample :
    (CustomDate.fetchPropertyHistory
        (fun _ => ({ status := 429 } : Resp Nat)) (fun _ => 0) 10).result = none ∧
    (CustomDate.fetchPropertyHistory
        (fun _ => ({ status := 429 } : Resp Nat)) (fun _ => 0) 10).callCount = 10 ∧
    Engagements.MAX_RETRIES < 10 ∧ Workflows.MAX_RETRIES < 10 := by
  refine ⟨rfl, rfl, by decide, by decide⟩

/-- C1 amended: in make_request_with_retries (all-touchpoints.py) a 429 is
re-attempted at most retries = 5 times — never more than 5 HTTP calls are
made — and an all-429 sequence ends with the Max retries exceeded failure
after exactly 5 calls; likewise make_request
(engagements-before-deal-creation.py) makes at most MAX_RETRIES = 3 calls
and an all-429 sequence ends with its retries-exhausted failure after
exactly 3 calls.  fetch_property_history, however, retries 429 without any
cap, so its retry loop need not terminate (see the counterexample). -/
theorem C1_amended_theorem (α : Type) (url : String)
    (params : List (String × String)) (jitter : Nat → ℚ)
    (stream : List (Resp α)) :
    ((AllTouchpoints.makeRequestWithRetries url params stream).calls).length ≤ 5 ∧
    ((∀ r ∈ stream, r.status = 429) → 5 ≤ stream.length →
      (AllTouchpoints.makeRequestWithRetries url params stream).outcome =
        .error .maxRetriesExceeded ∧
      ((AllTouchpoints.makeRequestWithRetries url params stream).calls).length = 5) ∧
    ((Engagements.makeRequest url params jitter stream).calls).length ≤ 3 ∧
    ((∀ r ∈ stream, r.status = 429) → 3 ≤ stream.length →
      (Engagements.makeRequest url params jitter stream).outcome =
        .error .failedAfterRetries ∧
      ((Engagements.makeRequest url params jitter stream).calls).length = 3) := by
  refine ⟨AllTouchpoints.mrwrGo_calls_length_le url params 5 stream 2,
    fun hall hlen => AllTouchpoints.mrwrGo_all429 url params 5 stream 2 hall hlen,
    Engagements.mkReqGo_calls_length_le url params jitter 3 stream 1,
    fun hall hlen => Engagements.mkReqGo_all429 url params jitter 3 stream 1 hall hlen⟩

/-- C1 amended, witnessed on a concrete all-429 stream of length 5. -/
theorem C1_amended_witness :
    (AllTouchpoints.makeRequestWithRetries "u" []
        (List.replicate 5 ({ status := 429 } : Resp Nat))).outcome =
      .error .maxRetriesExceeded ∧
    ((AllTouchpoints.makeRequestWithRetries "u" []
        (List.replicate 5 ({ status := 429 } : Resp Nat))).calls).length = 5 :=
  (C1_amended_theorem Nat "u" [] (fun _ => 0)
      (List.replicate 5 ({ status := 429 } : Resp Nat))).2.1
    (by decide) (by decide)

/-- C2 counterexample: the claim asserts that the pre-retry delay after a
429 is wait = retry_after * multiplier ^ attempt + jitter with retry_after
taken from the Retry-After header when present.  make_request_with_retries
(all-touchpoints.py lines 15 to 18) refutes this: given a 429 carrying
Retry-After: 7 followed by a 200, it sleeps exactly its fixed initial
backoff of 2 seconds, less than the 7 the header mandates — the header is
ignored entirely. -/
theorem C2_counterexample :
    (AllTouchpoints.makeRequestWithRetries "u" []
        [{ status := 429, retryAfter := some 7 },
         ({ status := 200 } : Resp Nat)]).waits = [2] ∧
    (2 : ℚ) < 7 := by
  refine ⟨rfl, by norm_num⟩

/-- C2 amended: in make_request (engagements-before-deal-creation.py) the
pre-retry delay on a first-attempt 429 is
(Retry-After header, else RETRY_BACKOFF) * RETRY_BACKOFF ^ 1 + jitter, and
for a single 429 carrying Retry-After: 2 followed by a 200 exactly one
retry occurs (two HTTP calls) whose delay is at least 2 * RETRY_BACKOFF = 4
seconds whenever the jitter is nonnegative.  make_request_with_retries
(all-touchpoints.py), by contrast, ignores the Retry-After header and
sleeps a fixed exponential backoff (see the counterexample). -/
theorem C2_amended_theorem (α : Type) (url : String)
    (params : List (String × String)) (jitter : Nat → ℚ) (r ok : Resp α)
    (rest : List (Resp α)) :
    (r.status = 429 →
      (Engagements.makeRequest url params jitter (r :: rest)).waits.head? =
        some (((r.retryAfter.getD Engagements.RETRY_BACKOFF : Nat) : ℚ) *
          (Engagements.RETRY_BACKOFF : ℚ) ^ 1 + jitter 1)) ∧
    (r.status = 429 → r.retryAfter = some 2 → ok.status = 200 →
      ((Engagements.makeRequest url params jitter (r :: ok :: rest)).calls).length = 2 ∧
      (Engagements.makeRequest url params jitter (r :: ok :: rest)).outcome = .ok ok ∧
      (Engagements.makeRequest url params jitter (r :: ok :: rest)).waits =
        [(2 : ℚ) * (Engagements.RETRY_BACKOFF : ℚ) ^ 1 + jitter 1] ∧
      (0 ≤ jitter 1 → (2 : ℚ) * (Engagements.RETRY_BACKOFF : ℚ) ≤
        (2 : ℚ) * (Engagements.RETRY_BACKOFF : ℚ) ^ 1 + jitter 1)) := by
  constructor
  · intro h429
    have hin : 400 ≤ r.status ∧ r.status < 600 := by omega
    simp [Engagements.makeRequest, Engagements.makeRequestGo, Engagements.MAX_RETRIES,
      hin, h429]
  · intro h429 hra h200
    have hin : 400 ≤ r.status ∧ r.status < 600 := by omega
    have hnotin : ¬ (400 ≤ ok.status ∧ ok.status < 600) := by omega
    simp [Engagements.makeRequest, Engagements.makeRequestGo, Engagements.MAX_RETRIES,
      hin, h429, hra, hnotin, Engagements.RETRY_BACKOFF]

/-- C2 amended, witnessed: a 429 with Retry-After: 2 followed by a 200,
zero jitter. -/
theorem C2_amended_witness :
    ((Engagements.makeRequest "u" [] (fun _ => 0)
        [{ status := 429, retryAfter := some 2 },
         ({ status := 200 } : Resp Nat)]).calls).length = 2 ∧
    (Engagements.makeRequest "u" [] (fun _ => 0)
        [{ status := 429, retryAfter := some 2 },
         ({ status := 200 } : Resp Nat)]).outcome =
      .ok ({ status := 200 } : Resp Nat) ∧
    (Engagements.makeRequest "u" [] (fun _ => 0)
        [{ status := 429, retryAfter := some 2 },
         ({ status := 200 } : Resp Nat)]).waits =
      [(2 : ℚ) * (Engagements.RETRY_BACKOFF : ℚ) ^ 1 + (fun _ => (0 : ℚ)) 1] ∧
    ((0 : ℚ) ≤ (fun _ => (0 : ℚ)) 1 → (2 : ℚ) * (Engagements.RETRY_BACKOFF : ℚ) ≤
      (2 : ℚ) * (Engagements.RETRY_BACKOFF : ℚ) ^ 1 + (fun _ => (0 : ℚ)) 1) :=
  (C2_amended_theorem Nat "u" [] (fun _ => 0)
      { status := 429, retryAfter := some 2 } { status := 200 } []).2
    rfl rfl rfl

/-- C3 counterexample: the claim asserts that on any non-2xx,
non-retryable status the fetcher aborts surfacing a fatal ClientError that
is propagated to the caller, not swallowed.  fetch_all_workflows_v4
(workflows-summarizer.py lines 252 to 259) refutes this: on a 404 on the
first call it logs the failure and returns the normal value — the empty
workflow list — after exactly one HTTP call; no error of any kind reaches
the caller. -/
theorem C3_counterexample :
    Workflows.fetchAllWorkflowsV4
        [({ status := 404, body := "Not Found" } : Resp Nat)] =
      { result := some [], callCount := 1, waits := [] } := by
  rfl

/-- C3 amended: for a first response whose status is a client error
(400 to 499, not 429), make_request
(engagements-before-deal-creation.py) aborts immediately after that one
call with zero retries, raising an error that carries the status code and
the response detail; fetch_all_workflows_v4, however, swallows the failure
and returns the list accumulated so far without surfacing any error. -/
theorem C3_amended_theorem (α : Type) (url : String)
    (params : List (String × String)) (jitter : Nat → ℚ) (r : Resp α)
    (rest : List (Resp α)) (h400 : 400 ≤ r.status) (h500 : r.status < 500)
    (h429 : r.status ≠ 429) :
    Engagements.makeRequest url params jitter (r :: rest) =
      { outcome := .error (.httpError r.status r.body),
        calls := [⟨url, params⟩], waits := [] } ∧
    Workflows.fetchAllWorkflowsV4 (r :: rest) =
      { result := some [], callCount := 1, waits := [] } := by
  have hin : 400 ≤ r.status ∧ r.status < 600 := by omega
  have h5 : ¬ 500 ≤ r.status := by omega
  have h200 : r.status ≠ 200 := by omega
  constructor
  · simp [Engagements.makeRequest, Engagements.makeRequestGo, Engagements.MAX_RETRIES,
      hin, h429, h5]
  · simp [Workflows.fetchAllWorkflowsV4, Workflows.fetchAllWorkflowsV4Go,
      Workflows.MAX_RETRIES, h200, h429]

/-- C3 amended, witnessed on a 404 first response. -/
theorem C3_amended_witness :
    Engagements.makeRequest "u" [] (fun _ => 0)
        [({ status := 404, body := "Not Found" } : Resp Nat)] =
      { outcome := .error (.httpError 404 "Not Found"),
        calls := [⟨"u", []⟩], waits := [] } ∧
    Workflows.fetchAllWorkflowsV4
        [({ status := 404, body := "Not Found" } : Resp Nat)] =
      { result := some [], callCount := 1, waits := [] } :=
  C3_amended_theorem Nat "u" [] (fun _ => 0)
    { status := 404, body := "Not Found" } [] (by decide) (by decide) (by decide)

/-- C8: the module docstring of engagements-before-deal-creation.py
declares the output field engagements_filtered_json, and the success path
of main emits it, but default_output — returned on every error path —
spells the key engagements_json instead.  Evaluated at the failing input
event = no inputFields (deal_id missing): main returns outputFields =
default_output with error_message set, whose key set omits the declared
key engagements_filtered_json.  The claim (all declared output keys are
present on every return) matches the docstring and the success path; the
default dictionary is the slip. -/
theorem C8_theorem :
    Engagements.mainValidationPath { deal_id := none, deal_create_date := none } =
      some (Engagements.setError Engagements.defaultOutput "Deal ID is missing.") ∧
    "engagements_filtered_json" ∈ Engagements.declaredOutputFields ∧
    "engagements_filtered_json" ∉
      (Engagements.setError Engagements.defaultOutput "Deal ID is missing.").map
        Prod.fst ∧
    ("error_message", Engagements.OutVal.str "Deal ID is missing.") ∈
      Engagements.setError Engagements.defaultOutput "Deal ID is missing." := by
  refine ⟨rfl, by decide, by decide, by decide⟩

/-- C6: every re-attempt of a retryable failure re-issues the identical
request: in make_request_with_retries all HTTP calls of a run carry the
same URL and query parameters (the pagination cursor lives in the
parameters and is unchanged); in fetch_workflow_details_v4 every call of a
run targets the same workflow URL; in make_request likewise.  Only the
attempt counter and the computed delay differ between attempts. -/
theorem C6_theorem (α : Type) (url workflow_id : String)
    (params : List (String × String)) (jitter : Nat → ℚ)
    (stream : List (Resp α)) :
    (∀ c ∈ (AllTouchpoints.makeRequestWithRetries url params stream).calls,
      c = ⟨url, params⟩) ∧
    (∀ u ∈ (Workflows.fetchWorkflowDetailsV4 workflow_id stream).urls,
      u = Workflows.detailsUrl workflow_id) ∧
    (∀ c ∈ (Engagements.makeRequest url params jitter stream).calls,
      c = ⟨url, params⟩) :=
  ⟨fun c hc => AllTouchpoints.mrwrGo_calls_const url params 5 stream 2 c hc,
   fun u hu => Workflows.fwdGo_urls_const (Workflows.detailsUrl workflow_id)
     stream Workflows.MAX_RETRIES Workflows.INITIAL_BACKOFF u hu,
   fun c hc => Engagements.mkReqGo_calls_const url params jitter 3 stream 1 c hc⟩

/-- C6, witnessed on a run with two 429 retries before a 200: the second
and third calls are in the calls trace and equal the original request. -/
theorem C6_witness :
    Request.mk "u" [("after", "cursor7")] = Request.mk "u" [("after", "cursor7")] ∧
    Workflows.detailsUrl "42" = Workflows.detailsUrl "42" :=
  ⟨(C6_theorem Nat "u" "42" [("after", "cursor7")] (fun _ => 0)
      [{ status := 429 }, { status := 429 }, { status := 200 }]).1
    ⟨"u", [("after", "cursor7")]⟩ (by decide),
   (C6_theorem Nat "u" "42" [("after", "cursor7")] (fun _ => 0)
      [{ status := 429 }, { status := 429 }, { status := 200 }]).2.1
    (Workflows.detailsUrl "42") (by decide)⟩

/-- C5: a page whose response carries no next cursor is the last one:
process_contacts_in_batches stops after processing it — exactly one page
request is issued no matter what the server would have answered next — and
fetch_all_workflows_v4 likewise returns after that page with exactly one
call.  The result is a function of that page alone, so restarting from
scratch against unchanged server state reproduces the same first page. -/
theorem C5_theorem (α : Type) (p : AllTouchpoints.CPage)
    (rest : List (Except FetchErr AllTouchpoints.CPage)) (r : Resp α)
    (wrest : List (Resp α)) (hnext : p.next = false) (hr200 : r.status = 200)
    (hrnext : r.next = false) :
    AllTouchpoints.processContactsInBatches (.ok p :: rest) =
      { outcome := .ok (),
        file := if p.results.isEmpty then []
          else AllTouchpoints.writeTouchpointsToCsv []
            (p.results.flatMap AllTouchpoints.contactTouchpoints),
        pagesFetched := 1 } ∧
    Workflows.fetchAllWorkflowsV4 (r :: wrest) =
      { result := some r.results, callCount := 1, waits := [] } := by
  constructor
  · by_cases hemp : p.results.isEmpty <;>
      simp [AllTouchpoints.processContactsInBatches, AllTouchpoints.processContactsGo,
        AllTouchpoints.TEST_MODE, hemp, hnext]
  · simp [Workflows.fetchAllWorkflowsV4, Workflows.fetchAllWorkflowsV4Go,
      Workflows.MAX_RETRIES, hr200, hrnext]

/-- C5, witnessed: a single contacts page and a single workflows page with
no next cursor, each followed by further server pages that are never
requested. -/
theorem C5_witness :
    AllTouchpoints.processContactsInBatches
        [.ok { results := [AllTouchpoints.contactA], next := false },
         .ok { results := [AllTouchpoints.contactB], next := true }] =
      { outcome := .ok (),
        file := if ([AllTouchpoints.contactA] : List AllTouchpoints.Contact).isEmpty then []
          else AllTouchpoints.writeTouchpointsToCsv []
            (([AllTouchpoints.contactA] : List AllTouchpoints.Contact).flatMap
              AllTouchpoints.contactTouchpoints),
        pagesFetched := 1 } ∧
    Workflows.fetchAllWorkflowsV4
        [({ status := 200, results := [7], next := false } : Resp Nat),
         { status := 200, results := [8], next := true }] =
      { result := some [7], callCount := 1, waits := [] } :=
  C5_theorem Nat { results := [AllTouchpoints.contactA], next := false }
    [.ok { results := [AllTouchpoints.contactB], next := true }]
    { status := 200, results := [7], next := false }
    [{ status := 200, results := [8], next := true }] rfl rfl rfl


namespace Workflows

theorem fawGo_pagesToStream (α : Type) :
    ∀ (pages : List (List α)) (acc : List α), pages ≠ [] →
      fetchAllWorkflowsV4Go (pagesToStream pages) acc 1 INITIAL_BACKOFF =
        { result := some (acc ++ pages.flatten), callCount := pages.length,
          waits := [] } := by
  intro pages
  induction pages with
  | nil => intro acc h; exact absurd rfl h
  | cons p ps ih =>
    intro acc _
    match ps with
    | [] =>
      simp [pagesToStream, fetchAllWorkflowsV4Go, MAX_RETRIES]
    | q :: rest =>
      have step : pagesToStream (p :: q :: rest) =
          { status := 200, results := p, next := true } ::
            pagesToStream (q :: rest) := rfl
      rw [step]
      simp only [fetchAllWorkflowsV4Go, MAX_RETRIES]
      rw [ih (acc ++ p) (by simp)]
      simp [List.append_assoc]

end Workflows

namespace AllTouchpoints

theorem write_nonempty (file : List (List String)) (tps : List Touchpoint)
    (h : file ≠ []) :
    writeTouchpointsToCsv file tps = file ++ tps.map touchpointRow := by
  simp [writeTouchpointsToCsv, h]

theorem pageRows_eq (pg : List Contact) :
    pageRows pg = (pg.flatMap contactTouchpoints).map touchpointRow := rfl

theorem pcGo_cons_ok_next (p : List Contact) (hp : p ≠ [])
    (rest : List (Except FetchErr CPage)) (file : List (List String))
    (processed : Nat) :
    processContactsGo (.ok { results := p, next := true } :: rest) file processed =
      { outcome := (processContactsGo rest
          (writeTouchpointsToCsv file (p.flatMap contactTouchpoints))
          (processed + p.length)).outcome,
        file := (processContactsGo rest
          (writeTouchpointsToCsv file (p.flatMap contactTouchpoints))
          (processed + p.length)).file,
        pagesFetched := (processContactsGo rest
          (writeTouchpointsToCsv file (p.flatMap contactTouchpoints))
          (processed + p.length)).pagesFetched + 1 } := by
  simp [processContactsGo, TEST_MODE, hp]

theorem pcGo_pagesToStream :
    ∀ (pages : List (List Contact)) (file : List (List String))
      (processed : Nat), file ≠ [] → pages ≠ [] → (∀ pg ∈ pages, pg ≠ []) →
      processContactsGo (contactPagesToStream pages) file processed =
        { outcome := .ok (), file := file ++ pages.flatMap pageRows,
          pagesFetched := pages.length } := by
  intro pages
  induction pages with
  | nil => intro file processed _ h _; exact absurd rfl h
  | cons p ps ih =>
    intro file processed hfile _ hall
    have hp : p ≠ [] := hall p (List.mem_cons_self p ps)
    match ps with
    | [] =>
      simp [contactPagesToStream, processContactsGo, TEST_MODE,
        writeTouchpointsToCsv, hp, hfile, pageRows]
    | q :: rest =>
      have step : contactPagesToStream (p :: q :: rest) =
          .ok { results := p, next := true } ::
            contactPagesToStream (q :: rest) := rfl
      rw [step, pcGo_cons_ok_next p hp _ file processed,
        write_nonempty file _ hfile,
        ih (file ++ (p.flatMap contactTouchpoints).map touchpointRow)
          (processed + p.length) (by simp [hfile]) (by simp)
          (fun pg hpg => hall pg (List.mem_cons_of_mem p hpg))]
      simp [pageRows_eq, List.append_assoc]

theorem pcGo_allNext_error :
    ∀ (pages : List (List Contact)) (e : FetchErr) (file : List (List String))
      (processed : Nat), file ≠ [] → (∀ pg ∈ pages, pg ≠ []) →
      processContactsGo (allNextStream pages ++ [.error e]) file processed =
        { outcome := .error e, file := file ++ pages.flatMap pageRows,
          pagesFetched := pages.length + 1 } := by
  intro pages
  induction pages with
  | nil =>
    intro e file processed _ _
    simp [allNextStream, processContactsGo, TEST_MODE]
  | cons p ps ih =>
    intro e file processed hfile hall
    have hp : p ≠ [] := hall p (List.mem_cons_self p ps)
    have step : allNextStream (p :: ps) ++ [.error e] =
        .ok { results := p, next := true } ::
          (allNextStream ps ++ [.error e]) := by
      simp [allNextStream]
    rw [step, pcGo_cons_ok_next p hp _ file processed,
      write_nonempty file _ hfile,
      ih e (file ++ (p.flatMap contactTouchpoints).map touchpointRow)
        (processed + p.length) (by simp [hfile])
        (fun pg hpg => hall pg (List.mem_cons_of_mem p hpg))]
    simp [pageRows_eq, List.append_assoc]

end AllTouchpoints

namespace CompressImages

theorem pageAt_length (R : List α) (offset : Nat) :
    (pageAt R offset).length = min limit (R.length - offset) := by
  simp [pageAt]

theorem fetchImagesGo_spec (R : List α) :
    ∀ (fuel offset : Nat) (acc : List α),
      R.length ≤ offset + limit * fuel →
      fetchImagesGo R fuel offset acc = acc ++ R.drop offset := by
  intro fuel
  induction fuel with
  | zero =>
    intro offset acc h
    have hd : R.drop offset = [] := List.drop_eq_nil_of_le (by simpa using h)
    simp [fetchImagesGo, hd]
  | succ f ih =>
    intro offset acc h
    simp only [fetchImagesGo]
    by_cases hlt : (pageAt R offset).length < 499
    · rw [if_pos hlt]
      have hlen : R.length - offset < 499 := by
        rw [pageAt_length] at hlt
        simp [limit] at hlt
        omega
      have hpage : pageAt R offset = R.drop offset := by
        unfold pageAt
        refine List.take_of_length_le ?_
        simp [limit]
        omega
      rw [hpage]
    · rw [if_neg hlt]
      have h2 : R.length ≤ (offset + limit) + limit * f := by
        simp only [limit] at h ⊢
        omega
      rw [ih (offset + limit) (acc ++ pageAt R offset) h2, List.append_assoc]
      congr 1
      have hdd : R.drop (offset + limit) = (R.drop offset).drop limit :=
        (List.drop_drop limit offset R).symm
      rw [hdd]
      unfold pageAt
      exact List.take_append_drop limit (R.drop offset)

end CompressImages

/-- C4 counterexample: the claim asserts that for every server exposing a
finite cursor-paginated sequence of pages a full fetch yields all pages in
order, none skipped.  process_contacts_in_batches refutes this: against a
3-page server whose middle page has an empty results list but still
carries a next cursor, the loop breaks at page 2, never requests page 3,
and the CSV file is missing the row of the contact on page 3 (which would
have contributed exactly one touchpoint row). -/
theorem C4_counterexample :
    AllTouchpoints.processContactsInBatches
        [.ok { results := [AllTouchpoints.contactA], next := true },
         .ok { results := [], next := true },
         .ok { results := [AllTouchpoints.contactC], next := false }] =
      { outcome := .ok (),
        file := [AllTouchpoints.fieldnames,
          ["1", "unknown", "t1", "REFERRALS", "unknown", "unknown",
           "unknown", "unknown", "unknown"]],
        pagesFetched := 2 } ∧
    (AllTouchpoints.contactTouchpoints AllTouchpoints.contactC).length = 1 ∧
    (2 : Nat) ≠ 3 := by
  refine ⟨by decide, by decide, by decide⟩

/-- C4 amended: fetch_all_workflows_v4 yields, against a finite
cursor-paginated server, exactly the concatenation of all pages in server
order with one call per page; fetch_images yields, against a faithful
offset-paginated server holding a record sequence, exactly that sequence
in order — its fewer-than-499-objects stop never skips or duplicates a
record; process_contacts_in_batches does the same — the CSV file receives
exactly the header plus the rows of every page in order — provided every
page has a nonempty results list (it stops at the first empty results
page even when a next cursor is present, see the counterexample). -/
theorem C4_amended_theorem :
    (∀ (α : Type) (pages : List (List α)), pages ≠ [] →
      Workflows.fetchAllWorkflowsV4 (Workflows.pagesToStream pages) =
        { result := some pages.flatten, callCount := pages.length,
          waits := [] }) ∧
    (∀ (α : Type) (R : List α), CompressImages.fetchImages R = R) ∧
    (∀ pages : List (List AllTouchpoints.Contact), pages ≠ [] →
      (∀ pg ∈ pages, pg ≠ []) →
      AllTouchpoints.processContactsInBatches
          (AllTouchpoints.contactPagesToStream pages) =
        { outcome := .ok (),
          file := AllTouchpoints.fieldnames ::
            pages.flatMap AllTouchpoints.pageRows,
          pagesFetched := pages.length }) := by
  refine ⟨?_, ?_, ?_⟩
  · intro α pages hne
    have h := Workflows.fawGo_pagesToStream α pages [] hne
    simpa [Workflows.fetchAllWorkflowsV4] using h
  · intro α R
    have h := CompressImages.fetchImagesGo_spec R
      (R.length / CompressImages.limit + 2) 0 []
      (by simp only [CompressImages.limit]; omega)
    simpa [CompressImages.fetchImages] using h
  · intro pages hne hall
    match pages with
    | [] => exact absurd rfl hne
    | p :: ps =>
      have hp : p ≠ [] := hall p (List.mem_cons_self p ps)
      have hw : AllTouchpoints.writeTouchpointsToCsv []
          (p.flatMap AllTouchpoints.contactTouchpoints) =
          AllTouchpoints.fieldnames ::
            (p.flatMap AllTouchpoints.contactTouchpoints).map
              AllTouchpoints.touchpointRow := by
        simp [AllTouchpoints.writeTouchpointsToCsv]
      match ps with
      | [] =>
        simp [AllTouchpoints.processContactsInBatches,
          AllTouchpoints.contactPagesToStream, AllTouchpoints.processContactsGo,
          AllTouchpoints.TEST_MODE, AllTouchpoints.writeTouchpointsToCsv, hp,
          AllTouchpoints.pageRows]
      | q :: rest =>
        have step : AllTouchpoints.contactPagesToStream (p :: q :: rest) =
            .ok { results := p, next := true } ::
              AllTouchpoints.contactPagesToStream (q :: rest) := rfl
        show AllTouchpoints.processContactsGo _ [] 0 = _
        rw [step, AllTouchpoints.pcGo_cons_ok_next p hp _ [] 0, hw,
          AllTouchpoints.pcGo_pagesToStream (q :: rest)
            (AllTouchpoints.fieldnames ::
              (p.flatMap AllTouchpoints.contactTouchpoints).map
                AllTouchpoints.touchpointRow)
            (0 + p.length) (by simp) (by simp)
            (fun pg hpg => hall pg (List.mem_cons_of_mem p hpg))]
        simp [AllTouchpoints.pageRows_eq]

/-- C4 amended, witnessed on a 3-page server with nonempty pages A, B, C
and on a concrete image-record sequence: all three fetchers produce
exactly the server content in order. -/
theorem C4_amended_witness :
    Workflows.fetchAllWorkflowsV4
        (Workflows.pagesToStream [[1, 2], [3], [4, 5]]) =
      { result := some ([[1, 2], [3], [4, 5]] : List (List Nat)).flatten,
        callCount := 3, waits := [] } ∧
    CompressImages.fetchImages [10, 20, 30] = [10, 20, 30] ∧
    AllTouchpoints.processContactsInBatches
        (AllTouchpoints.contactPagesToStream
          [[AllTouchpoints.contactA], [AllTouchpoints.contactB],
           [AllTouchpoints.contactC]]) =
      { outcome := .ok (),
        file := AllTouchpoints.fieldnames ::
          ([[AllTouchpoints.contactA], [AllTouchpoints.contactB],
            [AllTouchpoints.contactC]].flatMap AllTouchpoints.pageRows),
        pagesFetched := 3 } :=
  ⟨C4_amended_theorem.1 Nat [[1, 2], [3], [4, 5]] (by decide),
   C4_amended_theorem.2.1 Nat [10, 20, 30],
   C4_amended_theorem.2.2
     [[AllTouchpoints.contactA], [AllTouchpoints.contactB],
      [AllTouchpoints.contactC]] (by decide) (by decide)⟩

/-- C7: when a fatal failure occurs while fetching page n+1, the CSV rows
already appended for pages 1 to n are untouched: process_contacts_in_batches
propagates the error and the file holds exactly the header plus the rows
of the n successfully processed pages — no rollback, no salvage, no
cleanup. -/
theorem C7_theorem (pages : List (List AllTouchpoints.Contact)) (e : FetchErr)
    (hne : pages ≠ []) (hall : ∀ pg ∈ pages, pg ≠ []) :
    AllTouchpoints.processContactsInBatches
        (AllTouchpoints.allNextStream pages ++ [.error e]) =
      { outcome := .error e,
        file := AllTouchpoints.fieldnames ::
          pages.flatMap AllTouchpoints.pageRows,
        pagesFetched := pages.length + 1 } := by
  match pages with
  | [] => exact absurd rfl hne
  | p :: ps =>
    have hp : p ≠ [] := hall p (List.mem_cons_self p ps)
    have hw : AllTouchpoints.writeTouchpointsToCsv []
        (p.flatMap AllTouchpoints.contactTouchpoints) =
        AllTouchpoints.fieldnames ::
          (p.flatMap AllTouchpoints.contactTouchpoints).map
            AllTouchpoints.touchpointRow := by
      simp [AllTouchpoints.writeTouchpointsToCsv]
    have step : AllTouchpoints.allNextStream (p :: ps) ++ [.error e] =
        .ok { results := p, next := true } ::
          (AllTouchpoints.allNextStream ps ++ [.error e]) := by
      simp [AllTouchpoints.allNextStream]
    show AllTouchpoints.processContactsGo _ [] 0 = _
    rw [step, AllTouchpoints.pcGo_cons_ok_next p hp _ [] 0, hw,
      AllTouchpoints.pcGo_allNext_error ps e
        (AllTouchpoints.fieldnames ::
          (p.flatMap AllTouchpoints.contactTouchpoints).map
            AllTouchpoints.touchpointRow)
        (0 + p.length) (by simp)
        (fun pg hpg => hall pg (List.mem_cons_of_mem p hpg))]
    simp [AllTouchpoints.pageRows_eq]

/-- C7, witnessed: two successful pages followed by a fatal 404 while
fetching page 3; both pages of rows survive the abort. -/
theorem C7_witness :
    AllTouchpoints.processContactsInBatches
        (AllTouchpoints.allNextStream
            [[AllTouchpoints.contactA], [AllTouchpoints.contactB]] ++
          [.error (.httpError 404 "Not Found")]) =
      { outcome := .error (.httpError 404 "Not Found"),
        file := AllTouchpoints.fieldnames ::
          ([[AllTouchpoints.contactA], [AllTouchpoints.contactB]].flatMap
            AllTouchpoints.pageRows),
        pagesFetched := 3 } :=
  C7_theorem [[AllTouchpoints.contactA], [AllTouchpoints.contactB]]
    (.httpError 404 "Not Found") (by decide) (by decide)

namespace AllTouchpoints

theorem buildTouchpointsGo_spec (pwh : PropsWithHistory) (cid : Option String)
    (acid a a1 a2 : String) :
    ∀ (l : List HistEntry) (i : Nat),
      (buildTouchpointsGo pwh cid acid a a1 a2 l i).length ≤ l.length ∧
      ∀ tp ∈ buildTouchpointsGo pwh cid acid a a1 a2 l i,
        tp.source_touchpoint ∈ validSources := by
  intro l
  induction l with
  | nil => intro i; simp [buildTouchpointsGo]
  | cons e es ih =>
    intro i
    simp only [buildTouchpointsGo]
    by_cases h : e.value.getD "unknown" ∈ validSources
    · simp only [if_pos h]
      refine ⟨?_, ?_⟩
      · simpa using Nat.succ_le_succ (ih (i + 1)).1
      · intro tp htp
        rcases List.mem_cons.mp htp with h1 | h1
        · rw [h1]; exact h
        · exact (ih (i + 1)).2 tp h1
    · simp only [if_neg h]
      exact ⟨Nat.le_trans (ih (i + 1)).1 (Nat.le_succ _), (ih (i + 1)).2⟩

end AllTouchpoints

/-- C10: for every input history, build_touchpoints emits at most one
touchpoint per hs_latest_source history entry, and every emitted
touchpoint carries a source_touchpoint belonging to the fixed 13-element
valid_sources set; entries with any other source are dropped. -/
theorem C10_theorem (pwh : AllTouchpoints.PropsWithHistory)
    (cid : Option String) (acid a a1 a2 : String) :
    ((AllTouchpoints.buildTouchpoints pwh cid acid a a1 a2).length ≤
      pwh.hs_latest_source.length) ∧
    ∀ tp ∈ AllTouchpoints.buildTouchpoints pwh cid acid a a1 a2,
      tp.source_touchpoint ∈ AllTouchpoints.validSources :=
  AllTouchpoints.buildTouchpointsGo_spec pwh cid acid a a1 a2
    pwh.hs_latest_source 0

/-- C10, witnessed on a history with one valid-source entry and one
invalid-source entry: the output is shorter than the history and its one
member has a valid source. -/
theorem C10_witness :
    ((AllTouchpoints.buildTouchpoints
        { hs_latest_source := [{ value := some "REFERRALS", timestamp := some "t1" },
                               { value := some "bogus" }] }
        none "x" "y" "z" "w").length ≤ 2) ∧
    (AllTouchpoints.Touchpoint.mk none "x" (some "t1") "REFERRALS" "unknown"
        "unknown" "y" "z" "w").source_touchpoint ∈ AllTouchpoints.validSources :=
  ⟨(C10_theorem
      { hs_latest_source := [{ value := some "REFERRALS", timestamp := some "t1" },
                             { value := some "bogus" }] }
      none "x" "y" "z" "w").1,
   (C10_theorem
      { hs_latest_source := [{ value := some "REFERRALS", timestamp := some "t1" },
                             { value := some "bogus" }] }
      none "x" "y" "z" "w").2
     (AllTouchpoints.Touchpoint.mk none "x" (some "t1") "REFERRALS" "unknown"
       "unknown" "y" "z" "w") (by decide)⟩

namespace Months

theorem daysInYear_ge365 (y : Nat) : 365 ≤ daysInYear y := by
  unfold daysInYear; split <;> omega

theorem yearWalk_lt :
    ∀ (fuel y d : Nat), d ≤ fuel →
      (yearWalk fuel y d).2 < daysInYear (yearWalk fuel y d).1 := by
  intro fuel
  induction fuel with
  | zero =>
    intro y d hd
    have : d = 0 := Nat.le_zero.mp hd
    subst this
    have := daysInYear_ge365 y
    simp [yearWalk]; omega
  | succ f ih =>
    intro y d hd
    by_cases h : d < daysInYear y
    · simp [yearWalk, h]
    · have h365 := daysInYear_ge365 y
      simp only [yearWalk, if_neg h]
      exact ih (y + 1) (d - daysInYear y) (by omega)

theorem monthLengths_sum (b : Bool) :
    (monthLengths b).sum = if b then 366 else 365 := by
  cases b <;> rfl

theorem monthWalk_bounds :
    ∀ (L : List Nat) (m d : Nat), d < L.sum →
      m ≤ (monthWalk L m d).1 ∧ (monthWalk L m d).1 < m + L.length := by
  intro L
  induction L with
  | nil => intro m d hd; simp at hd
  | cons len rest ih =>
    intro m d hd
    by_cases h : d < len
    · simp [monthWalk, h]
    · simp only [monthWalk, if_neg h]
      have hsum : d - len < rest.sum := by
        simp [List.sum_cons] at hd; omega
      have := ih (m + 1) (d - len) hsum
      constructor
      · omega
      · simp only [List.length_cons]; omega

theorem msToDateTime_month_bounds (ms : Nat) :
    1 ≤ (msToDateTime ms).month ∧ (msToDateTime ms).month ≤ 12 := by
  have h2 := yearWalk_lt (ms / 86400000) 1970 (ms / 86400000) (Nat.le_refl _)
  have hsum : (yearWalk (ms / 86400000) 1970 (ms / 86400000)).2 <
      (monthLengths (isLeap (yearWalk (ms / 86400000) 1970 (ms / 86400000)).1)).sum := by
    rw [monthLengths_sum]
    unfold daysInYear at h2
    split at h2 <;> split <;> simp_all
  have h3 := monthWalk_bounds
    (monthLengths (isLeap (yearWalk (ms / 86400000) 1970 (ms / 86400000)).1)) 1
    (yearWalk (ms / 86400000) 1970 (ms / 86400000)).2 hsum
  have hlen : (monthLengths (isLeap (yearWalk (ms / 86400000) 1970
      (ms / 86400000)).1)).length = 12 := by
    cases (isLeap (yearWalk (ms / 86400000) 1970 (ms / 86400000)).1) <;> rfl
  have hmonth : (msToDateTime ms).month =
      (monthWalk (monthLengths (isLeap (yearWalk (ms / 86400000) 1970
        (ms / 86400000)).1)) 1
        (yearWalk (ms / 86400000) 1970 (ms / 86400000)).2).1 := rfl
  rw [hmonth]
  rw [hlen] at h3
  omega

theorem ymOfIndex_monthIndex (y m : Nat) (h1 : 1 ≤ m) (h12 : m ≤ 12) :
    ymOfIndex (monthIndex y m) = formatYM y m := by
  have hdiv : (y * 12 + m - 1) / 12 = y := by omega
  have hmod : (y * 12 + m - 1) % 12 + 1 = m := by omega
  show formatYM ((y * 12 + m - 1) / 12) ((y * 12 + m - 1) % 12 + 1) = formatYM y m
  rw [hdiv, hmod]

theorem genMonthsGo_spec (ey em : Nat) (hem1 : 1 ≤ em) (hem12 : em ≤ 12) :
    ∀ (fuel y m : Nat), 1 ≤ m → m ≤ 12 →
      monthIndex ey em + 1 - monthIndex y m ≤ fuel →
      genMonthsGo ey em fuel y m =
        (List.range (monthIndex ey em + 1 - monthIndex y m)).map
          (fun k => ymOfIndex (monthIndex y m + k)) := by
  intro fuel
  induction fuel with
  | zero =>
    intro y m hm1 hm12 hfuel
    have h0 : monthIndex ey em + 1 - monthIndex y m = 0 := Nat.le_zero.mp hfuel
    rw [h0]
    simp [genMonthsGo]
  | succ f ih =>
    intro y m hm1 hm12 hfuel
    by_cases hg : y < ey ∨ (y = ey ∧ m ≤ em)
    · have hle : monthIndex y m ≤ monthIndex ey em := by
        unfold monthIndex
        rcases hg with h | ⟨h, h2⟩ <;> omega
      obtain ⟨n, hn⟩ : ∃ n, monthIndex ey em + 1 - monthIndex y m = n + 1 :=
        ⟨monthIndex ey em - monthIndex y m, by omega⟩
      rw [hn, List.range_succ_eq_map, List.map_cons, List.map_map]
      simp only [genMonthsGo, if_pos hg]
      congr 1
      · rw [Nat.add_zero]
        exact (ymOfIndex_monthIndex y m hm1 hm12).symm
      · by_cases hm : m = 12
        · subst hm
          rw [if_pos rfl]
          have hidx : monthIndex (y + 1) 1 = monthIndex y 12 + 1 := by
            unfold monthIndex; omega
          have hfe : monthIndex ey em + 1 - monthIndex (y + 1) 1 ≤ f := by
            rw [hidx]; omega
          rw [ih (y + 1) 1 (by omega) (by omega) hfe]
          have hnn : monthIndex ey em + 1 - monthIndex (y + 1) 1 = n := by
            rw [hidx]; omega
          rw [hnn]
          refine List.map_congr_left fun k _ => ?_
          simp only [Function.comp]
          congr 1
          rw [hidx]
          omega
        · rw [if_neg hm]
          have hidx : monthIndex y (m + 1) = monthIndex y m + 1 := by
            unfold monthIndex; omega
          have hfe : monthIndex ey em + 1 - monthIndex y (m + 1) ≤ f := by
            rw [hidx]; omega
          rw [ih y (m + 1) (by omega) (by omega) hfe]
          have hnn : monthIndex ey em + 1 - monthIndex y (m + 1) = n := by
            rw [hidx]; omega
          rw [hnn]
          refine List.map_congr_left fun k _ => ?_
          simp only [Function.comp]
          congr 1
          rw [hidx]
          omega
    · have h0 : monthIndex ey em + 1 - monthIndex y m = 0 := by
        unfold monthIndex
        push_neg at hg
        rcases Nat.lt_or_ge ey y with h | h
        · omega
        · have := hg.2 (by omega)
          omega
      rw [h0]
      simp [genMonthsGo, hg]

theorem dtLt_false_le (a b : PyDateTime) (h : dtLt a b = false)
    (ha1 : 1 ≤ a.month) (ha12 : a.month ≤ 12) (hb1 : 1 ≤ b.month)
    (hb12 : b.month ≤ 12) :
    monthIndex b.year b.month ≤ monthIndex a.year a.month := by
  unfold dtLt at h
  unfold monthIndex
  split_ifs at h <;> simp_all <;> try omega

theorem mainMonths_end_branch (ts1 ts2 : Nat) (proj : Option Nat)
    (h2 : ts2 ≠ 0) :
    mainMonths (some ts1) (some ts2) proj =
      (if dtLt (msToDateTime ts2) (msToDateTime ts1) then
        MonthsResult.error "Invoicing period start date is after the end date."
      else
        .output
          (String.intercalate ";"
            (generateMonthList (msToDateTime ts1) (msToDateTime ts2)))
          (generateMonthList (msToDateTime ts1) (msToDateTime ts2)).length
          "NO") := by
  simp [mainMonths, truthyN, h2]

end Months

theorem C9_theorem (ts1 ts2 : Nat) (proj : Option Nat) (hts2 : ts2 ≠ 0) :
    (Months.dtLt (Months.msToDateTime ts2) (Months.msToDateTime ts1) = false →
      Months.mainMonths (some ts1) (some ts2) proj =
        .output
          (String.intercalate ";"
            (Months.generateMonthList (Months.msToDateTime ts1)
              (Months.msToDateTime ts2)))
          (Months.monthIndex (Months.msToDateTime ts2).year
              (Months.msToDateTime ts2).month -
            Months.monthIndex (Months.msToDateTime ts1).year
              (Months.msToDateTime ts1).month + 1)
          "NO" ∧
      Months.generateMonthList (Months.msToDateTime ts1)
          (Months.msToDateTime ts2) =
        (List.range
          (Months.monthIndex (Months.msToDateTime ts2).year
              (Months.msToDateTime ts2).month -
            Months.monthIndex (Months.msToDateTime ts1).year
              (Months.msToDateTime ts1).month + 1)).map
          (fun k => Months.ymOfIndex
            (Months.monthIndex (Months.msToDateTime ts1).year
              (Months.msToDateTime ts1).month + k))) ∧
    (Months.dtLt (Months.msToDateTime ts2) (Months.msToDateTime ts1) = true →
      Months.mainMonths (some ts1) (some ts2) proj =
        .error "Invoicing period start date is after the end date.") := by
  have hb1 := Months.msToDateTime_month_bounds ts1
  have hb2 := Months.msToDateTime_month_bounds ts2
  constructor
  · intro hle
    have hidx := Months.dtLt_false_le (Months.msToDateTime ts2)
      (Months.msToDateTime ts1) hle hb2.1 hb2.2 hb1.1 hb1.2
    have hdef : Months.generateMonthList (Months.msToDateTime ts1)
        (Months.msToDateTime ts2) =
        Months.genMonthsGo (Months.msToDateTime ts2).year
          (Months.msToDateTime ts2).month
          (Months.monthIndex (Months.msToDateTime ts2).year
              (Months.msToDateTime ts2).month + 1 -
            Months.monthIndex (Months.msToDateTime ts1).year
              (Months.msToDateTime ts1).month)
          (Months.msToDateTime ts1).year (Months.msToDateTime ts1).month := rfl
    have heq : Months.monthIndex (Months.msToDateTime ts2).year
          (Months.msToDateTime ts2).month + 1 -
        Months.monthIndex (Months.msToDateTime ts1).year
          (Months.msToDateTime ts1).month =
        Months.monthIndex (Months.msToDateTime ts2).year
          (Months.msToDateTime ts2).month -
        Months.monthIndex (Months.msToDateTime ts1).year
          (Months.msToDateTime ts1).month + 1 := by omega
    have hgen : Months.generateMonthList (Months.msToDateTime ts1)
        (Months.msToDateTime ts2) =
        (List.range
          (Months.monthIndex (Months.msToDateTime ts2).year
              (Months.msToDateTime ts2).month -
            Months.monthIndex (Months.msToDateTime ts1).year
              (Months.msToDateTime ts1).month + 1)).map
          (fun k => Months.ymOfIndex
            (Months.monthIndex (Months.msToDateTime ts1).year
              (Months.msToDateTime ts1).month + k)) := by
      rw [hdef, Months.genMonthsGo_spec (Months.msToDateTime ts2).year
        (Months.msToDateTime ts2).month hb2.1 hb2.2 _
        (Months.msToDateTime ts1).year (Months.msToDateTime ts1).month
        hb1.1 hb1.2 (Nat.le_refl _), heq]
    refine ⟨?_, hgen⟩
    rw [Months.mainMonths_end_branch ts1 ts2 proj hts2, if_neg (by simp [hle])]
    rw [hgen]
    simp
  · intro hgt
    rw [Months.mainMonths_end_branch ts1 ts2 proj hts2, if_pos (by simp [hgt])]

theorem C9_witness :
    Months.mainMonths (some 1644883200000) (some 1672531199000) none =
      .output
        (String.intercalate ";"
          (Months.generateMonthList (Months.msToDateTime 1644883200000)
            (Months.msToDateTime 1672531199000)))
        (Months.monthIndex (Months.msToDateTime 1672531199000).year
            (Months.msToDateTime 1672531199000).month -
          Months.monthIndex (Months.msToDateTime 1644883200000).year
            (Months.msToDateTime 1644883200000).month + 1)
        "NO" ∧
    Months.generateMonthList (Months.msToDateTime 1644883200000)
        (Months.msToDateTime 1672531199000) =
      (List.range
        (Months.monthIndex (Months.msToDateTime 1672531199000).year
            (Months.msToDateTime 1672531199000).month -
          Months.monthIndex (Months.msToDateTime 1644883200000).year
            (Months.msToDateTime 1644883200000).month + 1)).map
        (fun k => Months.ymOfIndex
          (Months.monthIndex (Months.msToDateTime 1644883200000).year
            (Months.msToDateTime 1644883200000).month + k)) :=
  (C9_theorem 1644883200000 1672531199000 none (by decide)).1 (by decide)
